import Mathlib

/-!
Shallow embedding of the price-movement scanner (`databento.py`,
class `PriceMovementScanner`) and proofs about its event-handling
behaviour.

Modelling decisions:
* Prices travel on the feed as fixed-point integers (`bid_px`, `ask_px`
  of type `int` in the source); they are modelled as `Int`.  All real
  arithmetic (`PX_SCALE` scaling, mid-price, relative move, threshold
  comparison) is modelled over `ℚ`.
* Python dictionaries are modelled as functions into `Option`; a
  subscript `d[k]` on a missing key raises `KeyError`, and `x / 0.0`
  raises `ZeroDivisionError`, so `scan` returns
  `Except PyError (ScannerState × Option Alert)`.  An exception escapes
  `scan` before any state mutation (the only mutations, lines 78 and
  106 of the source, cannot raise), so the `.error` result carries no
  state: the caller keeps the pre-call state.
* The `print` on lines 102-105 is modelled as emitting a structured
  `Alert` record carrying the values that are printed.
* `MBP1Msg.levels` is a fixed one-element array in the source; only
  `levels[0]` is ever read, modelled as the single field `levels0`.
-/

namespace Databento

abbrev Symbol := String

/-- Top-of-book level of an `MBP1Msg`: fixed-point bid and ask prices. -/
structure BookLevel where
  bid_px : Int
  ask_px : Int
  deriving DecidableEq

/-- The fields of a `db.MBP1Msg` that `scan` reads: `event.instrument_id`,
`event.hd.ts_event` and `event.levels[0]`. -/
structure MBP1Msg where
  instrument_id : Nat
  ts_event : Nat
  levels0 : BookLevel
  deriving DecidableEq

/-- The fields of a `db.SymbolMappingMsg` that `scan` reads:
`event.hd.instrument_id` and `event.stype_out_symbol`. -/
structure SymbolMappingMsg where
  instrument_id : Nat
  stype_out_symbol : Symbol
  deriving DecidableEq

/-- A market event delivered to `scan`: a symbol-mapping message, a
top-of-book quote update, or any other feed message (ignored). -/
inductive MarketEvent where
  | symbolMapping : SymbolMappingMsg → MarketEvent
  | mbp1 : MBP1Msg → MarketEvent
  | other : MarketEvent
  deriving DecidableEq

/-- Fixed-point to real scaling factor, `PX_SCALE = 1e-9`. -/
def PX_SCALE : ℚ := 1 / 1000000000

/-- Sentinel for an empty book side, `PX_NULL = 2**63 - 1`. -/
def PX_NULL : Int := 2 ^ 63 - 1

/-- Default threshold, `PCT_MOVE_THRESHOLD = 0.03`. -/
def PCT_MOVE_THRESHOLD : ℚ := 3 / 100

/-- A Python exception escaping `scan`. -/
inductive PyError where
  | keyError : PyError
  | zeroDivisionError : PyError
  deriving DecidableEq

/-- The alert record printed on lines 102-105 of the source: symbol,
event timestamp, mid price, previous close and relative move. -/
structure Alert where
  symbol : Symbol
  ts_event : Nat
  mid : ℚ
  last : ℚ
  abs_r : ℚ
  deriving DecidableEq

/-- The mutable state of a `PriceMovementScanner` instance: the
configured threshold and the three dictionaries
`symbol_directory : Dict[int, str]`, `last_day_lookup : Dict[str, float]`
and `is_signal_lit : Dict[str, bool]`, each modelled as a function into
`Option`. -/
@[ext]
structure ScannerState where
  pct_threshold : ℚ
  symbol_directory : Nat → Option Symbol
  last_day_lookup : Symbol → Option ℚ
  is_signal_lit : Symbol → Option Bool

/-- The mid price of line 96,
`mid = (event.levels[0].bid_px + event.levels[0].ask_px) * PX_SCALE * 0.5`. -/
def midOf (e : MBP1Msg) : ℚ :=
  ((e.levels0.bid_px + e.levels0.ask_px : Int) : ℚ) * PX_SCALE * (1 / 2)

/-- The relative move of line 98, `abs_r = abs(mid - last) / last`. -/
def abs_r (mid last : ℚ) : ℚ := |mid - last| / last

/-- Dictionary assignment `self.symbol_directory[iid] = sym` (line 78). -/
def setDirectory (st : ScannerState) (iid : Nat) (sym : Symbol) : ScannerState :=
  { st with symbol_directory := fun i => if i = iid then some sym else st.symbol_directory i }

/-- Dictionary assignment `self.is_signal_lit[sym] = True` (line 106). -/
def setLit (st : ScannerState) (sym : Symbol) : ScannerState :=
  { st with is_signal_lit := fun s => if s = sym then some true else st.is_signal_lit s }

/-- The `PriceMovementScanner.scan` method.  Mirrors the source line by
line: dispatch on the event class; record a symbol mapping; ignore
non-quote events; resolve the symbol (`KeyError` if unmapped); drop the
event if either book side is the null sentinel; compute the mid price;
look up yesterday's close (`KeyError` if absent); compute the relative
move (`ZeroDivisionError` if the close is zero); and if the move
strictly exceeds the threshold and the signal is not yet lit
(short-circuit: `is_signal_lit` is only read when the threshold test
passes), light the signal and emit the alert. -/
def scan (st : ScannerState) (event : MarketEvent) :
    Except PyError (ScannerState × Option Alert) :=
  match event with
  | .symbolMapping m => .ok (setDirectory st m.instrument_id m.stype_out_symbol, none)
  | .other => .ok (st, none)
  | .mbp1 e =>
    match st.symbol_directory e.instrument_id with
    | none => .error .keyError
    | some symbol =>
      let bid := e.levels0.bid_px
      let ask := e.levels0.ask_px
      if bid = PX_NULL ∨ ask = PX_NULL then
        .ok (st, none)
      else
        let mid : ℚ := midOf e
        match st.last_day_lookup symbol with
        | none => .error .keyError
        | some last =>
          if last = 0 then
            .error .zeroDivisionError
          else
            let r : ℚ := abs_r mid last
            if r > st.pct_threshold then
              match st.is_signal_lit symbol with
              | none => .error .keyError
              | some lit =>
                if lit then
                  .ok (st, none)
                else
                  .ok (setLit st symbol, some ⟨symbol, e.ts_event, mid, last, r⟩)
            else
              .ok (st, none)

/-- The `__init__` method, given the already-built reference table
(`get_last_day_lookup` is external I/O).  The threshold argument is
`Optional[float]`; `pct_threshold or self.PCT_MOVE_THRESHOLD` selects
the default when the argument is `None` or falsy (zero).
`symbol_directory` starts empty and `is_signal_lit` maps every symbol
of the reference table to `False`. -/
def initScanner (pct_threshold : Option ℚ) (lookup : Symbol → Option ℚ) : ScannerState where
  pct_threshold :=
    match pct_threshold with
    | none => PCT_MOVE_THRESHOLD
    | some x => if x = 0 then PCT_MOVE_THRESHOLD else x
  symbol_directory := fun _ => none
  last_day_lookup := lookup
  is_signal_lit := fun s =>
    match lookup s with
    | some _ => some false
    | none => none

/-- Feed a list of events through `scan`, threading the state.  Returns
the final state, the alerts emitted in order, and the first uncaught
exception (processing stops there, as an exception in the callback ends
the stream). -/
def scanAll (st : ScannerState) : List MarketEvent → ScannerState × List Alert × Option PyError
  | [] => (st, [], none)
  | e :: es =>
    match scan st e with
    | .error err => (st, [], some err)
    | .ok (st', a) =>
      let r := scanAll st' es
      (r.1, a.toList ++ r.2.1, r.2.2)

/-- The alert produced by one `scan` result (`none` when an exception
escaped: nothing was printed before the raise). -/
def alertOf : Except PyError (ScannerState × Option Alert) → Option Alert
  | .ok (_, a) => a
  | .error _ => none

/-- Number of alerts for a given symbol in an emitted alert list. -/
def countAlerts (s : Symbol) (alerts : List Alert) : Nat :=
  (alerts.filter (fun a => a.symbol = s)).length

/-! Branch lemmas: one equation for each control path of `scan`. -/

theorem scan_sm_eq (st : ScannerState) (m : SymbolMappingMsg) :
    scan st (.symbolMapping m) = .ok (setDirectory st m.instrument_id m.stype_out_symbol, none) :=
  rfl

theorem scan_other_eq (st : ScannerState) :
    scan st .other = .ok (st, none) :=
  rfl

theorem scan_mbp1_unmapped (st : ScannerState) (e : MBP1Msg)
    (hdir : st.symbol_directory e.instrument_id = none) :
    scan st (.mbp1 e) = .error .keyError := by
  simp [scan, hdir]

theorem scan_mbp1_null (st : ScannerState) (e : MBP1Msg) (s : Symbol)
    (hdir : st.symbol_directory e.instrument_id = some s)
    (hnull : e.levels0.bid_px = PX_NULL ∨ e.levels0.ask_px = PX_NULL) :
    scan st (.mbp1 e) = .ok (st, none) := by
  simp [scan, hdir, hnull]

theorem scan_mbp1_nolast (st : ScannerState) (e : MBP1Msg) (s : Symbol)
    (hdir : st.symbol_directory e.instrument_id = some s)
    (hbid : e.levels0.bid_px ≠ PX_NULL) (hask : e.levels0.ask_px ≠ PX_NULL)
    (hlast : st.last_day_lookup s = none) :
    scan st (.mbp1 e) = .error .keyError := by
  simp [scan, hdir, hbid, hask, hlast]

theorem scan_mbp1_zero (st : ScannerState) (e : MBP1Msg) (s : Symbol)
    (hdir : st.symbol_directory e.instrument_id = some s)
    (hbid : e.levels0.bid_px ≠ PX_NULL) (hask : e.levels0.ask_px ≠ PX_NULL)
    (hlast : st.last_day_lookup s = some 0) :
    scan st (.mbp1 e) = .error .zeroDivisionError := by
  simp [scan, hdir, hbid, hask, hlast]

theorem scan_mbp1_nofire (st : ScannerState) (e : MBP1Msg) (s : Symbol) (last : ℚ)
    (hdir : st.symbol_directory e.instrument_id = some s)
    (hbid : e.levels0.bid_px ≠ PX_NULL) (hask : e.levels0.ask_px ≠ PX_NULL)
    (hlast : st.last_day_lookup s = some last) (h0 : last ≠ 0)
    (hr : ¬ abs_r (midOf e) last > st.pct_threshold) :
    scan st (.mbp1 e) = .ok (st, none) := by
  simp [scan, hdir, hbid, hask, hlast, h0, hr]

theorem scan_mbp1_nolit (st : ScannerState) (e : MBP1Msg) (s : Symbol) (last : ℚ)
    (hdir : st.symbol_directory e.instrument_id = some s)
    (hbid : e.levels0.bid_px ≠ PX_NULL) (hask : e.levels0.ask_px ≠ PX_NULL)
    (hlast : st.last_day_lookup s = some last) (h0 : last ≠ 0)
    (hr : abs_r (midOf e) last > st.pct_threshold)
    (hlit : st.is_signal_lit s = none) :
    scan st (.mbp1 e) = .error .keyError := by
  simp [scan, hdir, hbid, hask, hlast, h0, hr, hlit]

theorem scan_mbp1_fired (st : ScannerState) (e : MBP1Msg) (s : Symbol) (last : ℚ)
    (hdir : st.symbol_directory e.instrument_id = some s)
    (hbid : e.levels0.bid_px ≠ PX_NULL) (hask : e.levels0.ask_px ≠ PX_NULL)
    (hlast : st.last_day_lookup s = some last) (h0 : last ≠ 0)
    (hr : abs_r (midOf e) last > st.pct_threshold)
    (hlit : st.is_signal_lit s = some true) :
    scan st (.mbp1 e) = .ok (st, none) := by
  simp [scan, hdir, hbid, hask, hlast, h0, hr, hlit]

theorem scan_mbp1_fire (st : ScannerState) (e : MBP1Msg) (s : Symbol) (last : ℚ)
    (hdir : st.symbol_directory e.instrument_id = some s)
    (hbid : e.levels0.bid_px ≠ PX_NULL) (hask : e.levels0.ask_px ≠ PX_NULL)
    (hlast : st.last_day_lookup s = some last) (h0 : last ≠ 0)
    (hr : abs_r (midOf e) last > st.pct_threshold)
    (hlit : st.is_signal_lit s = some false) :
    scan st (.mbp1 e) =
      .ok (setLit st s, some ⟨s, e.ts_event, midOf e, last, abs_r (midOf e) last⟩) := by
  simp [scan, hdir, hbid, hask, hlast, h0, hr, hlit]

/-! State-shape and invariant lemmas. -/

theorem setDirectory_lit (st : ScannerState) (iid : Nat) (sym : Symbol) :
    (setDirectory st iid sym).is_signal_lit = st.is_signal_lit :=
  rfl

theorem setDirectory_lookup (st : ScannerState) (iid : Nat) (sym : Symbol) :
    (setDirectory st iid sym).last_day_lookup = st.last_day_lookup :=
  rfl

theorem setLit_lookup (st : ScannerState) (sym : Symbol) :
    (setLit st sym).last_day_lookup = st.last_day_lookup :=
  rfl

theorem setLit_lit (st : ScannerState) (sym s : Symbol) :
    (setLit st sym).is_signal_lit s = if s = sym then some true else st.is_signal_lit s :=
  rfl

/-- Every successful `scan` leaves the state unchanged, adds one directory
entry, or lights one signal; an alert is emitted only in the last case, for
the lit symbol, and only from the un-lit state. -/
theorem scan_ok_shape (st st' : ScannerState) (e : MarketEvent) (a : Option Alert)
    (h : scan st e = .ok (st', a)) :
    (∃ iid sym, st' = setDirectory st iid sym ∧ a = none) ∨
    (st' = st ∧ a = none) ∨
    (∃ sym, st' = setLit st sym ∧ st.is_signal_lit sym = some false ∧
      ∃ al, a = some al ∧ al.symbol = sym) := by
  cases e with
  | symbolMapping m =>
    rw [scan_sm_eq] at h
    simp only [Except.ok.injEq, Prod.mk.injEq] at h
    exact Or.inl ⟨m.instrument_id, m.stype_out_symbol, h.1.symm, h.2.symm⟩
  | other =>
    rw [scan_other_eq] at h
    simp only [Except.ok.injEq, Prod.mk.injEq] at h
    exact Or.inr (Or.inl ⟨h.1.symm, h.2.symm⟩)
  | mbp1 e =>
    rcases hdir : st.symbol_directory e.instrument_id with _ | s
    · rw [scan_mbp1_unmapped st e hdir] at h; exact absurd h (by simp)
    by_cases hnull : e.levels0.bid_px = PX_NULL ∨ e.levels0.ask_px = PX_NULL
    · rw [scan_mbp1_null st e s hdir hnull] at h
      simp only [Except.ok.injEq, Prod.mk.injEq] at h
      exact Or.inr (Or.inl ⟨h.1.symm, h.2.symm⟩)
    push_neg at hnull
    obtain ⟨hbid, hask⟩ := hnull
    rcases hlast : st.last_day_lookup s with _ | last
    · rw [scan_mbp1_nolast st e s hdir hbid hask hlast] at h; exact absurd h (by simp)
    by_cases h0 : last = 0
    · subst h0
      rw [scan_mbp1_zero st e s hdir hbid hask hlast] at h; exact absurd h (by simp)
    by_cases hr : abs_r (midOf e) last > st.pct_threshold
    · rcases hlit : st.is_signal_lit s with _ | lit
      · rw [scan_mbp1_nolit st e s last hdir hbid hask hlast h0 hr hlit] at h
        exact absurd h (by simp)
      cases lit with
      | true =>
        rw [scan_mbp1_fired st e s last hdir hbid hask hlast h0 hr hlit] at h
        simp only [Except.ok.injEq, Prod.mk.injEq] at h
        exact Or.inr (Or.inl ⟨h.1.symm, h.2.symm⟩)
      | false =>
        rw [scan_mbp1_fire st e s last hdir hbid hask hlast h0 hr hlit] at h
        simp only [Except.ok.injEq, Prod.mk.injEq] at h
        exact Or.inr (Or.inr ⟨s, h.1.symm, hlit,
          ⟨s, e.ts_event, midOf e, last, abs_r (midOf e) last⟩, h.2.symm, rfl⟩)
    · rw [scan_mbp1_nofire st e s last hdir hbid hask hlast h0 hr] at h
      simp only [Except.ok.injEq, Prod.mk.injEq] at h
      exact Or.inr (Or.inl ⟨h.1.symm, h.2.symm⟩)

/-- A lit signal stays lit across any successful `scan` (no re-arming). -/
theorem scan_lit_mono (st st' : ScannerState) (e : MarketEvent) (a : Option Alert) (s : Symbol)
    (h : scan st e = .ok (st', a)) (hs : st.is_signal_lit s = some true) :
    st'.is_signal_lit s = some true := by
  rcases scan_ok_shape st st' e a h with ⟨iid, sym, rfl, _⟩ | ⟨rfl, _⟩ | ⟨sym, rfl, _, _⟩
  · exact hs
  · exact hs
  · rw [setLit_lit]
    by_cases hss : s = sym <;> simp [hss, hs]

/-- A successful `scan` never changes the reference table or the threshold. -/
theorem scan_ok_frame (st st' : ScannerState) (e : MarketEvent) (a : Option Alert)
    (h : scan st e = .ok (st', a)) :
    st'.last_day_lookup = st.last_day_lookup ∧ st'.pct_threshold = st.pct_threshold := by
  rcases scan_ok_shape st st' e a h with ⟨iid, sym, rfl, _⟩ | ⟨rfl, _⟩ | ⟨sym, rfl, _, _⟩ <;>
    exact ⟨rfl, rfl⟩

/-- An emitted alert comes from the un-lit state and lights its symbol. -/
theorem scan_ok_alert (st st' : ScannerState) (e : MarketEvent) (al : Alert)
    (h : scan st e = .ok (st', some al)) :
    st.is_signal_lit al.symbol = some false ∧ st' = setLit st al.symbol := by
  rcases scan_ok_shape st st' e (some al) h with ⟨_, _, _, hn⟩ | ⟨_, hn⟩ |
    ⟨sym, rfl, harm, al', hal', hsym⟩
  · exact absurd hn (by simp)
  · exact absurd hn (by simp)
  · obtain rfl : al = al' := Option.some.inj hal'
    rw [hsym]
    exact ⟨harm, rfl⟩

theorem countAlerts_nil (s : Symbol) : countAlerts s [] = 0 :=
  rfl

theorem countAlerts_append (s : Symbol) (l1 l2 : List Alert) :
    countAlerts s (l1 ++ l2) = countAlerts s l1 + countAlerts s l2 := by
  simp [countAlerts]

theorem countAlerts_cons (s : Symbol) (a : Alert) (l : List Alert) :
    countAlerts s (a :: l) = (if a.symbol = s then 1 else 0) + countAlerts s l := by
  by_cases h : a.symbol = s <;> simp [countAlerts, List.filter_cons, h, Nat.add_comm]

/-- Once a symbol's signal is lit, no later event of the run can produce
an alert for it. -/
theorem scanAll_fired (st : ScannerState) (evts : List MarketEvent) (s : Symbol)
    (hs : st.is_signal_lit s = some true) :
    countAlerts s (scanAll st evts).2.1 = 0 := by
  induction evts generalizing st with
  | nil => rfl
  | cons e es ih =>
    cases hscan : scan st e with
    | error err => simp [scanAll, hscan, countAlerts]
    | ok p =>
      obtain ⟨st', a⟩ := p
      have hmono := scan_lit_mono st st' e a s hscan hs
      cases a with
      | none => simpa [scanAll, hscan, countAlerts_append] using ih st' hmono
      | some al =>
        obtain ⟨harm, _⟩ := scan_ok_alert st st' e al hscan
        have hne : al.symbol ≠ s := fun hsym => by rw [hsym, hs] at harm; exact absurd harm (by simp)
        simp only [scanAll, hscan, Option.toList_some, List.singleton_append]
        rw [countAlerts_cons, if_neg hne]
        simpa using ih st' hmono

/-- At most one alert per symbol over any run from any state. -/
theorem scanAll_count_le_one (st : ScannerState) (evts : List MarketEvent) (s : Symbol) :
    countAlerts s (scanAll st evts).2.1 ≤ 1 := by
  induction evts generalizing st with
  | nil => simp [scanAll, countAlerts]
  | cons e es ih =>
    cases hscan : scan st e with
    | error err => simp [scanAll, hscan, countAlerts]
    | ok p =>
      obtain ⟨st', a⟩ := p
      cases a with
      | none => simpa [scanAll, hscan, countAlerts_append] using ih st'
      | some al =>
        obtain ⟨harm, hst'⟩ := scan_ok_alert st st' e al hscan
        simp only [scanAll, hscan, Option.toList_some, List.singleton_append]
        rw [countAlerts_cons]
        by_cases hsym : al.symbol = s
        · have hlit : st'.is_signal_lit s = some true := by
            rw [hst', ← hsym, setLit_lit]; simp
          rw [if_pos hsym, scanAll_fired st' es s hlit]
        · rw [if_neg hsym]
          simpa using ih st'

/-- No run of events changes the reference table or the threshold. -/
theorem scanAll_frame (st : ScannerState) (evts : List MarketEvent) :
    (scanAll st evts).1.last_day_lookup = st.last_day_lookup ∧
    (scanAll st evts).1.pct_threshold = st.pct_threshold := by
  induction evts generalizing st with
  | nil => exact ⟨rfl, rfl⟩
  | cons e es ih =>
    cases hscan : scan st e with
    | error err => simp [scanAll, hscan]
    | ok p =>
      obtain ⟨st', a⟩ := p
      obtain ⟨h1, h2⟩ := scan_ok_frame st st' e a hscan
      have := ih st'
      simp only [scanAll, hscan]
      exact ⟨this.1.trans h1, this.2.trans h2⟩

/-! Concrete fixtures used by the scenario theorems and witnesses. -/

/-- Reference table of the end-to-end scenario: NVDA closed at 102.71. -/
def nvdaLookup : Symbol → Option ℚ :=
  fun s => if s = "NVDA" then some (10271 / 100) else none

/-- The event `SymbolMapping(id=1, "NVDA")`. -/
def nvdaMapping : MarketEvent := .symbolMapping ⟨1, "NVDA"⟩

/-- The quote `QuoteUpdate(id=1, bid=97.95, ask=98.43)` in fixed-point feed
units (`97.95 / PX_SCALE` and `98.43 / PX_SCALE`). -/
def nvdaQuoteMsg : MBP1Msg := ⟨1, 1745383201688717194, ⟨97950000000, 98430000000⟩⟩

/-- The quote event wrapping `nvdaQuoteMsg`. -/
def nvdaQuote : MarketEvent := .mbp1 nvdaQuoteMsg

/-- Reference table of the degenerate scenario: ZZZZ closed at 0.0. -/
def zzzzLookup : Symbol → Option ℚ :=
  fun s => if s = "ZZZZ" then some 0 else none

/-- Reference table with a single symbol AB at reference price 100. -/
def abLookup : Symbol → Option ℚ :=
  fun s => if s = "AB" then some 100 else none

/-! Claim theorems. -/

/-- C1 counterexample: a quote update for instrument 1 arriving before any
symbol-mapping event is not silently dropped; `scan` raises `KeyError` at
line 88 (`self.symbol_directory[event.instrument_id]`). -/
theorem unmapped_quote_raises :
    scan (initScanner none nvdaLookup) (.mbp1 ⟨1, 0, ⟨100000000000, 100000000000⟩⟩) =
      .error .keyError :=
  scan_mbp1_unmapped _ _ rfl

/-- C1 (amended): a quote update whose instrument ID has no entry in the
resolution table produces no alert, but it is not silently dropped: the
`symbol_directory` subscript raises `KeyError`, which propagates out of
`scan` (no state was modified before the raise). -/
theorem scan_unmapped_keyError (st : ScannerState) (e : MBP1Msg)
    (hdir : st.symbol_directory e.instrument_id = none) :
    scan st (.mbp1 e) = .error .keyError ∧ alertOf (scan st (.mbp1 e)) = none := by
  rw [scan_mbp1_unmapped st e hdir]
  exact ⟨rfl, rfl⟩

/-- C1 witness: the amended statement at a concrete unmapped quote. -/
theorem scan_unmapped_keyError_witness :
    scan (initScanner none zzzzLookup) (.mbp1 ⟨7, 0, ⟨5, 6⟩⟩) = .error .keyError ∧
    alertOf (scan (initScanner none zzzzLookup) (.mbp1 ⟨7, 0, ⟨5, 6⟩⟩)) = none :=
  scan_unmapped_keyError (initScanner none zzzzLookup) ⟨7, 0, ⟨5, 6⟩⟩ rfl

/-- C2 counterexample: with reference table `{"ZZZZ": 0.0}`, mapping
instrument 1 to ZZZZ and then handling a quote for it does raise: the
division `abs(mid - last) / last` at line 98 raises `ZeroDivisionError`,
which propagates out of `scan`. -/
theorem zero_reference_raises :
    (scanAll (initScanner none zzzzLookup)
      [.symbolMapping ⟨1, "ZZZZ"⟩, .mbp1 ⟨1, 0, ⟨100000000000, 100000000000⟩⟩]).2.2 =
      some .zeroDivisionError := by
  norm_num [scanAll, scan, initScanner, setDirectory, zzzzLookup, PX_NULL]

/-- C2 (amended): a quote update for a symbol whose reference price is ≤ 0
produces no alert, but the division-by-zero is not caught: with reference
price exactly 0 the division at line 98 raises `ZeroDivisionError`, which
propagates out of `scan`; with a strictly negative reference price (and a
nonnegative threshold) the event is dropped without alert or error. -/
theorem scan_nonpositive_reference (st : ScannerState) (e : MBP1Msg) (s : Symbol) (last : ℚ)
    (hthr : 0 ≤ st.pct_threshold)
    (hdir : st.symbol_directory e.instrument_id = some s)
    (hbid : e.levels0.bid_px ≠ PX_NULL) (hask : e.levels0.ask_px ≠ PX_NULL)
    (hlast : st.last_day_lookup s = some last) (hle : last ≤ 0) :
    alertOf (scan st (.mbp1 e)) = none ∧
    (last = 0 → scan st (.mbp1 e) = .error .zeroDivisionError) ∧
    (last < 0 → scan st (.mbp1 e) = .ok (st, none)) := by
  by_cases h0 : last = 0
  · subst h0
    rw [scan_mbp1_zero st e s hdir hbid hask hlast]
    exact ⟨rfl, fun _ => rfl, fun hlt => absurd hlt (by simp)⟩
  · have hlt : last < 0 := lt_of_le_of_ne hle h0
    have hr : ¬ abs_r (midOf e) last > st.pct_threshold := by
      have hnp : abs_r (midOf e) last ≤ 0 :=
        div_nonpos_iff.mpr (Or.inl ⟨abs_nonneg _, hle⟩)
      exact not_lt.mpr (hnp.trans hthr)
    rw [scan_mbp1_nofire st e s last hdir hbid hask hlast h0 hr]
    exact ⟨rfl, fun h => absurd h h0, fun _ => rfl⟩

/-- C2 witness: the amended statement at the concrete degenerate scenario
(reference price exactly 0). -/
theorem scan_nonpositive_reference_witness :
    alertOf (scan (setDirectory (initScanner none zzzzLookup) 1 "ZZZZ")
      (.mbp1 ⟨1, 0, ⟨100000000000, 100000000000⟩⟩)) = none ∧
    ((0 : ℚ) = 0 → scan (setDirectory (initScanner none zzzzLookup) 1 "ZZZZ")
      (.mbp1 ⟨1, 0, ⟨100000000000, 100000000000⟩⟩) = .error .zeroDivisionError) ∧
    ((0 : ℚ) < 0 → scan (setDirectory (initScanner none zzzzLookup) 1 "ZZZZ")
      (.mbp1 ⟨1, 0, ⟨100000000000, 100000000000⟩⟩) =
        .ok (setDirectory (initScanner none zzzzLookup) 1 "ZZZZ", none)) :=
  scan_nonpositive_reference (setDirectory (initScanner none zzzzLookup) 1 "ZZZZ")
    ⟨1, 0, ⟨100000000000, 100000000000⟩⟩ "ZZZZ" 0
    (by norm_num [setDirectory, initScanner, PCT_MOVE_THRESHOLD])
    (by simp [setDirectory])
    (by norm_num [PX_NULL]) (by norm_num [PX_NULL])
    (by simp [setDirectory, initScanner, zzzzLookup]) le_rfl

/-- C3 counterexample: with reference table `{"NVDA": 102.71}`, a quote
whose instrument resolves to AAPL (absent from the table) is not silently
dropped; the `last_day_lookup` subscript at line 97 raises `KeyError`. -/
theorem out_of_universe_raises :
    (scanAll (initScanner none nvdaLookup)
      [.symbolMapping ⟨1, "AAPL"⟩, .mbp1 ⟨1, 0, ⟨100000000000, 100000000000⟩⟩]).2.2 =
      some .keyError := by
  have h2 : scan (setDirectory (initScanner none nvdaLookup) 1 "AAPL")
      (.mbp1 ⟨1, 0, ⟨100000000000, 100000000000⟩⟩) = .error .keyError :=
    scan_mbp1_nolast _ _ "AAPL" rfl (by norm_num [PX_NULL]) (by norm_num [PX_NULL]) rfl
  simp [scanAll, scan_sm_eq, h2]

/-- C3 (amended): a quote update resolving to a symbol absent from the
Reference Price Table produces no alert, but when both book sides are
populated it is not silently dropped: the `last_day_lookup` subscript
raises `KeyError`, which propagates out of `scan`. -/
theorem scan_out_of_universe_keyError (st : ScannerState) (e : MBP1Msg) (s : Symbol)
    (hdir : st.symbol_directory e.instrument_id = some s)
    (hbid : e.levels0.bid_px ≠ PX_NULL) (hask : e.levels0.ask_px ≠ PX_NULL)
    (hlast : st.last_day_lookup s = none) :
    scan st (.mbp1 e) = .error .keyError ∧ alertOf (scan st (.mbp1 e)) = none := by
  rw [scan_mbp1_nolast st e s hdir hbid hask hlast]
  exact ⟨rfl, rfl⟩

/-- C3 witness: the amended statement at a concrete out-of-universe quote. -/
theorem scan_out_of_universe_keyError_witness :
    scan (setDirectory (initScanner none nvdaLookup) 1 "AAPL")
      (.mbp1 ⟨1, 0, ⟨100000000000, 100000000000⟩⟩) = .error .keyError ∧
    alertOf (scan (setDirectory (initScanner none nvdaLookup) 1 "AAPL")
      (.mbp1 ⟨1, 0, ⟨100000000000, 100000000000⟩⟩)) = none :=
  scan_out_of_universe_keyError (setDirectory (initScanner none nvdaLookup) 1 "AAPL")
    ⟨1, 0, ⟨100000000000, 100000000000⟩⟩ "AAPL"
    rfl
    (by norm_num [PX_NULL]) (by norm_num [PX_NULL])
    rfl

/-- C4: at most one alert per symbol per session.  (a) Over any event
sequence from any state, at most one alert is emitted for any symbol;
(b) a lit (`Fired`) signal never reverts across a handled event; (c) from
a freshly constructed scanner, a mapping for a scanned symbol followed by
one or more copies of a quote whose relative move strictly exceeds the
threshold produces exactly one alert for that symbol. -/
theorem at_most_one_alert :
    (∀ (st : ScannerState) (evts : List MarketEvent) (s : Symbol),
      countAlerts s (scanAll st evts).2.1 ≤ 1) ∧
    (∀ (st st' : ScannerState) (e : MarketEvent) (a : Option Alert) (s : Symbol),
      scan st e = .ok (st', a) → st.is_signal_lit s = some true →
        st'.is_signal_lit s = some true) ∧
    (∀ (thr : Option ℚ) (lookup : Symbol → Option ℚ) (s : Symbol) (e : MBP1Msg)
      (last : ℚ) (n : Nat),
      lookup s = some last → last ≠ 0 →
      e.levels0.bid_px ≠ PX_NULL → e.levels0.ask_px ≠ PX_NULL →
      abs_r (midOf e) last > (initScanner thr lookup).pct_threshold →
      countAlerts s (scanAll (initScanner thr lookup)
        (.symbolMapping ⟨e.instrument_id, s⟩ :: List.replicate (n + 1) (.mbp1 e))).2.1 = 1) := by
  refine ⟨scanAll_count_le_one, scan_lit_mono, ?_⟩
  intro thr lookup s e last n hlast h0 hbid hask hr
  have hdir : (setDirectory (initScanner thr lookup) e.instrument_id s).symbol_directory
      e.instrument_id = some s := by simp [setDirectory]
  have hlit1 : (setDirectory (initScanner thr lookup) e.instrument_id s).is_signal_lit s
      = some false := by simp [setDirectory, initScanner, hlast]
  have hfire := scan_mbp1_fire (setDirectory (initScanner thr lookup) e.instrument_id s)
    e s last hdir hbid hask hlast h0 hr hlit1
  have hlit2 : (setLit (setDirectory (initScanner thr lookup) e.instrument_id s) s).is_signal_lit s
      = some true := by simp [setLit_lit]
  have hrest := scanAll_fired _ (List.replicate n (.mbp1 e)) s hlit2
  simp only [List.replicate_succ, scanAll, scan_sm_eq, hfire, Option.toList_some,
    Option.toList_none, List.nil_append, List.singleton_append]
  rw [countAlerts_cons, if_pos rfl, hrest]

/-- C4 witness: the exactly-one conclusion at the concrete NVDA scenario
with the triggering quote handled twice. -/
theorem at_most_one_alert_witness :
    countAlerts "NVDA" (scanAll (initScanner none nvdaLookup)
      (.symbolMapping ⟨1, "NVDA"⟩ :: List.replicate 2 (.mbp1 nvdaQuoteMsg))).2.1 = 1 :=
  at_most_one_alert.2.2 none nvdaLookup "NVDA" nvdaQuoteMsg (10271 / 100) 1
    rfl (by norm_num) (by norm_num [nvdaQuoteMsg, PX_NULL])
    (by norm_num [nvdaQuoteMsg, PX_NULL])
    (by norm_num [abs_r, midOf, nvdaQuoteMsg, PX_SCALE, initScanner, PCT_MOVE_THRESHOLD,
      abs_sub_comm, abs_of_nonneg])

/-- C5: the comparison `abs_r > self.pct_threshold` at line 100 is strict:
when the relative move equals the threshold exactly no alert is produced
and the state is unchanged; when it strictly exceeds the threshold and the
signal is not yet lit, the alert is produced. -/
theorem threshold_strict (st : ScannerState) (e : MBP1Msg) (s : Symbol) (last : ℚ)
    (hdir : st.symbol_directory e.instrument_id = some s)
    (hbid : e.levels0.bid_px ≠ PX_NULL) (hask : e.levels0.ask_px ≠ PX_NULL)
    (hlast : st.last_day_lookup s = some last) (h0 : last ≠ 0) :
    (abs_r (midOf e) last = st.pct_threshold → scan st (.mbp1 e) = .ok (st, none)) ∧
    (abs_r (midOf e) last > st.pct_threshold → st.is_signal_lit s = some false →
      scan st (.mbp1 e) =
        .ok (setLit st s, some ⟨s, e.ts_event, midOf e, last, abs_r (midOf e) last⟩)) := by
  constructor
  · intro heq
    exact scan_mbp1_nofire st e s last hdir hbid hask hlast h0 (by rw [heq]; exact lt_irrefl _)
  · intro hr hlit
    exact scan_mbp1_fire st e s last hdir hbid hask hlast h0 hr hlit

/-- C5 witness: with reference price 100 and the default threshold 0.03, a
quote at mid 103 (move exactly 0.03) produces no alert, and a quote at mid
104 (move 0.04) produces one. -/
theorem threshold_strict_witness :
    (scan (setDirectory (initScanner none abLookup) 1 "AB")
      (.mbp1 ⟨1, 0, ⟨103000000000, 103000000000⟩⟩) =
      .ok (setDirectory (initScanner none abLookup) 1 "AB", none)) ∧
    (scan (setDirectory (initScanner none abLookup) 1 "AB")
      (.mbp1 ⟨1, 0, ⟨104000000000, 104000000000⟩⟩) =
      .ok (setLit (setDirectory (initScanner none abLookup) 1 "AB") "AB",
        some ⟨"AB", 0, midOf ⟨1, 0, ⟨104000000000, 104000000000⟩⟩, 100,
          abs_r (midOf ⟨1, 0, ⟨104000000000, 104000000000⟩⟩) 100⟩)) :=
  ⟨(threshold_strict (setDirectory (initScanner none abLookup) 1 "AB")
      ⟨1, 0, ⟨103000000000, 103000000000⟩⟩ "AB" 100
      rfl (by norm_num [PX_NULL]) (by norm_num [PX_NULL]) rfl (by norm_num)).1
    (by norm_num [abs_r, midOf, PX_SCALE, setDirectory, initScanner, PCT_MOVE_THRESHOLD,
      abs_of_nonneg]),
   (threshold_strict (setDirectory (initScanner none abLookup) 1 "AB")
      ⟨1, 0, ⟨104000000000, 104000000000⟩⟩ "AB" 100
      rfl (by norm_num [PX_NULL]) (by norm_num [PX_NULL]) rfl (by norm_num)).2
    (by norm_num [abs_r, midOf, PX_SCALE, setDirectory, initScanner, PCT_MOVE_THRESHOLD,
      abs_of_nonneg])
    rfl⟩

/-- C6: any quote update with the null sentinel on either book side
produces no alert, whatever the other fields hold (lines 92-94; if the
instrument is additionally unmapped, the `KeyError` of line 88 still
produces no alert). -/
theorem null_side_no_alert (st : ScannerState) (e : MBP1Msg)
    (h : e.levels0.bid_px = PX_NULL ∨ e.levels0.ask_px = PX_NULL) :
    alertOf (scan st (.mbp1 e)) = none := by
  rcases hdir : st.symbol_directory e.instrument_id with _ | s
  · rw [scan_mbp1_unmapped st e hdir]; rfl
  · rw [scan_mbp1_null st e s hdir h]; rfl

/-- C6 witness: a concrete quote with a null bid produces no alert. -/
theorem null_side_no_alert_witness :
    alertOf (scan (initScanner none nvdaLookup) (.mbp1 ⟨1, 0, ⟨PX_NULL, 42⟩⟩)) = none :=
  null_side_no_alert (initScanner none nvdaLookup) ⟨1, 0, ⟨PX_NULL, 42⟩⟩ (Or.inl rfl)

/-- C7: handling the same `SymbolMapping` event twice in succession yields
the same engine state as handling it once, and mapping events emit no
alert and no error. -/
theorem symbol_mapping_idempotent (st : ScannerState) (m : SymbolMappingMsg) :
    (scanAll st [.symbolMapping m, .symbolMapping m]).1 =
      (scanAll st [.symbolMapping m]).1 ∧
    (scanAll st [.symbolMapping m, .symbolMapping m]).2.1 = [] ∧
    (scanAll st [.symbolMapping m, .symbolMapping m]).2.2 = none := by
  refine ⟨?_, by simp [scanAll, scan_sm_eq], by simp [scanAll, scan_sm_eq]⟩
  simp only [scanAll, scan_sm_eq]
  have hdir : (setDirectory (setDirectory st m.instrument_id m.stype_out_symbol)
      m.instrument_id m.stype_out_symbol).symbol_directory =
      (setDirectory st m.instrument_id m.stype_out_symbol).symbol_directory := by
    funext i
    by_cases h : i = m.instrument_id <;> simp [setDirectory, h]
  exact ScannerState.ext rfl hdir rfl rfl

/-- C8: the end-to-end scenario.  With reference table `{"NVDA": 102.71}`
and the default threshold 0.03, the mapping followed by
`QuoteUpdate(id=1, bid=97.95, ask=98.43)` gives mid 98.19 and relative
move 452/10271 ≈ 0.0440 > 0.03, emitting exactly one alert carrying
symbol NVDA, mid 98.19 and reference 102.71; an identical second quote
emits nothing further. -/
theorem end_to_end_nvda :
    midOf nvdaQuoteMsg = 9819 / 100 ∧
    abs_r (9819 / 100) (10271 / 100) = 452 / 10271 ∧
    (452 / 10271 : ℚ) > 3 / 100 ∧
    (44 / 1000 : ℚ) < 452 / 10271 ∧ (452 / 10271 : ℚ) < 441 / 10000 ∧
    (scanAll (initScanner none nvdaLookup) [nvdaMapping, nvdaQuote, nvdaQuote]).2.1 =
      [⟨"NVDA", 1745383201688717194, 9819 / 100, 10271 / 100, 452 / 10271⟩] ∧
    (scanAll (initScanner none nvdaLookup) [nvdaMapping, nvdaQuote, nvdaQuote]).2.2 = none := by
  norm_num [scanAll, scan, setDirectory, initScanner, nvdaLookup, nvdaMapping, nvdaQuote,
    nvdaQuoteMsg, PX_NULL, PX_SCALE, PCT_MOVE_THRESHOLD, setLit, midOf, abs_r,
    abs_sub_comm, abs_of_nonneg]

/-- C9: no handled event ever changes the reference table: after any event
sequence the `last_day_lookup` mapping is the one built at construction
(only `symbol_directory` and `is_signal_lit` change). -/
theorem reference_table_read_only :
    (∀ (st : ScannerState) (evts : List MarketEvent),
      (scanAll st evts).1.last_day_lookup = st.last_day_lookup) ∧
    (∀ (thr : Option ℚ) (lookup : Symbol → Option ℚ) (evts : List MarketEvent),
      (scanAll (initScanner thr lookup) evts).1.last_day_lookup = lookup) :=
  ⟨fun st evts => (scanAll_frame st evts).1,
   fun thr lookup evts => (scanAll_frame (initScanner thr lookup) evts).1⟩

/-- C10: the constructor selects the threshold with the truthiness-based
expression `pct_threshold or self.PCT_MOVE_THRESHOLD` (line 40): an
explicit threshold of 0 is falsy and silently falls back to the default
0.03, exactly as `None` does; only a non-zero argument takes effect. -/
theorem threshold_truthiness :
    (∀ (lookup : Symbol → Option ℚ),
      (initScanner (some 0) lookup).pct_threshold = PCT_MOVE_THRESHOLD) ∧
    (∀ (lookup : Symbol → Option ℚ),
      (initScanner none lookup).pct_threshold = PCT_MOVE_THRESHOLD) ∧
    (∀ (x : ℚ) (lookup : Symbol → Option ℚ), x ≠ 0 →
      (initScanner (some x) lookup).pct_threshold = x) ∧
    PCT_MOVE_THRESHOLD = 3 / 100 :=
  ⟨fun _ => by simp [initScanner], fun _ => rfl,
   fun x lookup hx => by simp [initScanner, hx], rfl⟩

/-- C10 witness: a non-zero explicit threshold of 1/2 takes effect. -/
theorem threshold_truthiness_witness :
    (initScanner (some (1 / 2)) nvdaLookup).pct_threshold = 1 / 2 :=
  threshold_truthiness.2.2.1 (1 / 2) nvdaLookup (by norm_num)

end Databento
